import Mathlib

/-!
Verification of the authentication core of `uv-fastapi-template`.

A shallow embedding of the repository's authentication core
(`app/core/security.py`, `app/core/deps.py`, `app/crud/user.py`,
`app/api/v1/auth.py`, `app/models/response.py`, `app/schemas/user.py`)
together with theorems settling the specification's claims about it.

External primitives that the repository calls but does not contain
(the `jose` JWT library's signature/expiry validation, the `bcrypt`
hashing kernel) are modelled from the specification's contracts and are
clearly marked as such; everything else is translated directly from the
Python source.
-/

namespace AuthCore

/-! ## Data model

`app/models/user.py`: the `users` table.  The audit columns inherited
from `BaseModel` (`is_deleted`, `updated_at`, `created_by`, `updated_by`,
`status`, `sort_order`, `remark`) play no role in any claim and are
elided, except `created_at` which `UserOut` exposes.  Timestamps are
modelled as naturals. -/

structure User where
  id : Nat
  email : String
  full_name : Option String
  hashed_password : String
  is_active : Bool
  created_at : Nat
deriving DecidableEq, Repr

/-- The users table: the rows currently stored.  A database session for a
request is a read/write view of this list. -/
abbrev Db := List User

/-- From `app/crud/user.py`, `get_user_by_email`:
`select(User).where(User.email == email)` then `scalar_one_or_none()`. -/
def get_user_by_email (db : Db) (email : String) : Option User :=
  List.find? (fun u => u.email == email) db

/-! ## JWT claims and tokens

`create_access_token` encodes a claim dict `{sub: ..., exp: ...}`; the
wire token is the signed encoding of that claim set.  A bearer string
arriving from a client is either a structurally well-formed signed token
or garbage, so the wire type has both constructors.  Signatures are
abstracted as a `sign : String → JwtClaims → Nat` parameter (HMAC-SHA256
over the server secret); the server's actual signer is one such
function, and every theorem below holds for all of them. -/

structure JwtClaims where
  sub : Option String
  exp : Option Int
deriving DecidableEq, Repr

inductive JwtToken where
  | signed (claims : JwtClaims) (sig : Nat)
  | malformed (raw : String)
deriving DecidableEq, Repr

/-- The `jose.JWTError` outcomes of `jwt.decode` (signature mismatch,
expiry, unparsable token) — all subclasses of the one `JWTError` that
`get_current_user` catches. -/
inductive JoseError where
  | signatureInvalid
  | expired
  | malformedToken
deriving DecidableEq, Repr

/-- From `app/core/config.py`: the `Settings.ACCESS_TOKEN_EXPIRE_MINUTES` default. -/
def ACCESS_TOKEN_EXPIRE_MINUTES : Int := 30

/-- From `app/core/security.py`, `create_access_token`.  `expires_delta` is a
`timedelta` in seconds; Python's `if expires_delta:` is a truthiness
test, so `timedelta(0)` takes the default-TTL branch exactly like
`None`. -/
def create_access_token (sign : String → JwtClaims → Nat) (secret : String)
    (data : JwtClaims) (now : Int) (expires_delta : Option Int) : JwtToken :=
  let expire : Int :=
    match expires_delta with
    | some d => if d ≠ 0 then now + d else now + ACCESS_TOKEN_EXPIRE_MINUTES * 60
    | none => now + ACCESS_TOKEN_EXPIRE_MINUTES * 60
  let payload : JwtClaims := { data with exp := some expire }
  JwtToken.signed payload (sign secret payload)

/-- Modelled from the spec: `jose.jwt.decode` (the `jose` library is a
dependency, not part of `src/`).  Per §4.2 of the spec it "verifies
signature integrity and expiry (`exp` must be strictly greater than
now)"; signature mismatch, malformed structure and expiry each raise a
`JWTError`.  A token whose claim set carries no `exp` is not
expiry-checked (jose's default `options`). -/
def jwtDecode (sign : String → JwtClaims → Nat) (secret : String)
    (token : JwtToken) (now : Int) : Except JoseError JwtClaims :=
  match token with
  | JwtToken.malformed _ => Except.error JoseError.malformedToken
  | JwtToken.signed claims sig =>
    if sig ≠ sign secret claims then Except.error JoseError.signatureInvalid
    else
      match claims.exp with
      | some e => if e > now then Except.ok claims else Except.error JoseError.expired
      | none => Except.ok claims

/-! ## Identity resolver (`app/core/deps.py` `get_current_user`) -/

/-- A `fastapi.HTTPException` as raised by the core: status, detail,
headers. -/
structure HTTPExc where
  status_code : Nat
  detail : String
  headers : List (String × String)
deriving DecidableEq, Repr

/-- The single `credentials_exception` built at the top of
`get_current_user`. -/
def credentialsException : HTTPExc :=
  { status_code := 401
    detail := "Could not validate credentials"
    headers := [("WWW-Authenticate", "Bearer")] }

/-- From `app/core/deps.py`, `get_current_user`: decode the bearer token with
the server secret; a `JWTError`, a missing/null `sub` claim, or an email
with no matching account each raise the one `credentials_exception`. -/
def get_current_user (sign : String → JwtClaims → Nat) (secret : String)
    (db : Db) (token : JwtToken) (now : Int) : Except HTTPExc User :=
  match jwtDecode sign secret token now with
  | Except.error _ => Except.error credentialsException
  | Except.ok payload =>
    match payload.sub with
    | none => Except.error credentialsException
    | some email =>
      match get_user_by_email db email with
      | none => Except.error credentialsException
      | some user => Except.ok user

/-! ## Password hasher (`app/core/security.py`)

`get_password_hash` and `verify_password` truncate the UTF-8 encoding
of the password to 72 bytes (bcrypt's input ceiling) and then call the
`bcrypt` library.  The library itself is a dependency, not part of
`src/`; its one-way kernel is abstracted as a
`kernel : List Nat → Nat → List Char → List Char` parameter (password
bytes, cost, salt → digest), and a stored hash is the bcrypt modular
string `$2b$` + two-digit cost + `$` + 22-char salt + digest, which is
self-describing per the spec's §4.1 contract. -/

/-- UTF-8 bytes of a string, as naturals (each `< 256`). -/
def utf8Bytes (s : String) : List Nat :=
  List.map (fun b => UInt8.toNat b) (Array.toList (ByteArray.data (String.toUTF8 s)))

/-- The `[:72]` byte truncation both hashing and verification apply. -/
def truncate72 (bytes : List Nat) : List Nat :=
  List.take 72 bytes

/-- The bcrypt modular-crypt string `$2b$cc$<salt><digest>` assembled by
`bcrypt.hashpw` (salt is 22 radix-64 characters, cost two digits). -/
def mkBcryptChars (cost : Nat) (salt digest : List Char) : List Char :=
  '$' :: '2' :: 'b' :: '$' ::
    Char.ofNat (48 + cost / 10) :: Char.ofNat (48 + cost % 10) :: '$' ::
    (salt ++ digest)

/-- Modelled from the spec: the stored-hash format check performed inside
`bcrypt.checkpw` (the `bcrypt` library is a dependency, not part of
`src/`).  Per §4.1 the hash is "self-describing (embeds algorithm
parameters and salt)"; a string not of that shape makes the library
raise (`Invalid salt`), here signalled by `none`. -/
def parseBcryptChars : List Char → Option (Nat × List Char × List Char)
  | '$' :: '2' :: 'b' :: '$' :: c1 :: c2 :: '$' :: rest =>
    if 48 ≤ Char.toNat c1 ∧ Char.toNat c1 ≤ 57 ∧
       48 ≤ Char.toNat c2 ∧ Char.toNat c2 ≤ 57 ∧ 22 ≤ List.length rest then
      some ((Char.toNat c1 - 48) * 10 + (Char.toNat c2 - 48),
            List.take 22 rest, List.drop 22 rest)
    else none
  | _ => none

/-- Modelled from the spec: `bcrypt.checkpw` — parse the stored hash
(raising on a malformed one), recompute the kernel with the embedded
cost and salt, and compare digests in constant time. -/
def checkpw (kernel : List Nat → Nat → List Char → List Char)
    (passwordBytes : List Nat) (storedHash : String) : Except String Bool :=
  match parseBcryptChars (String.data storedHash) with
  | none => Except.error "Invalid salt"
  | some (cost, salt, digest) =>
    Except.ok (decide (kernel passwordBytes cost salt = digest))

/-- Modelled from the spec: `bcrypt.hashpw` with a salt of the given cost
— computes the kernel digest and emits the self-describing modular
string. -/
def hashpw (kernel : List Nat → Nat → List Char → List Char)
    (passwordBytes : List Nat) (cost : Nat) (salt : List Char) : String :=
  String.mk (mkBcryptChars cost salt (kernel passwordBytes cost salt))

/-- From `app/core/security.py`, `verify_password`: truncate the plaintext's
UTF-8 encoding to 72 bytes, call `bcrypt.checkpw`, and turn any raised
exception into `false`. -/
def verify_password (kernel : List Nat → Nat → List Char → List Char)
    (plain_password : String) (hashed_password : String) : Bool :=
  match checkpw kernel (truncate72 (utf8Bytes plain_password)) hashed_password with
  | Except.ok b => b
  | Except.error _ => false

/-- From `app/core/security.py`, `get_password_hash`: truncate the UTF-8
encoding to 72 bytes and hash with a fresh salt (`bcrypt.gensalt()`; the
salt and its cost are parameters here since `gensalt` draws them). -/
def get_password_hash (kernel : List Nat → Nat → List Char → List Char)
    (password : String) (cost : Nat) (salt : List Char) : String :=
  hashpw kernel (truncate72 (utf8Bytes password)) cost salt

/-! ## Schemas (`app/schemas/user.py`)

`UserCreate` and `UserUpdate` both inherit `UserBase`, so both carry a
required `email`; `UserUpdate`'s `password: Union[str, None]` has no
default, hence is likewise always set (a pydantic field without a
default is required even when its type admits `None`). -/

structure UserCreate where
  email : String
  password : String
  full_name : Option String
deriving DecidableEq, Repr

structure UserUpdate where
  email : String
  password : Option String
deriving DecidableEq, Repr

/-! ## CRUD (`app/crud/user.py`) -/

/-- From `app/crud/user.py`, `authenticate_user`: look the account up by email; absent, or a
failing password check, both yield `None`. -/
def authenticate_user (kernel : List Nat → Nat → List Char → List Char)
    (db : Db) (email password : String) : Option User :=
  match get_user_by_email db email with
  | none => none
  | some user =>
    if verify_password kernel password user.hashed_password then some user else none

/-- From `app/crud/user.py`, `create_user`: reject an already-registered email with an
`HTTPException 400`, otherwise insert a row with the hashed password
(`is_active` defaults to `True`; `id` is the autoincrement key and
`created_at` the server-set timestamp, both passed explicitly here). -/
def create_user (kernel : List Nat → Nat → List Char → List Char)
    (cost : Nat) (salt : List Char) (db : Db) (nextId : Nat) (now : Nat)
    (user_in : UserCreate) : Except HTTPExc (Db × User) :=
  match get_user_by_email db user_in.email with
  | some _ => Except.error { status_code := 400, detail := "该邮箱已被注册", headers := [] }
  | none =>
    let user : User :=
      { id := nextId
        email := user_in.email
        full_name := user_in.full_name
        hashed_password := get_password_hash kernel user_in.password cost salt
        is_active := true
        created_at := now }
    Except.ok (db ++ [user], user)

/-- From `app/crud/user.py`, `update_user`: `user_in.model_dump(exclude_unset=True)` always
contains both `email` and `password` (both fields of `UserUpdate` are
required, hence set on every instance); the `password` entry is popped
and re-hashed — when it is `None`, `get_password_hash(None)` crashes on
`None.encode`, modelled as `Except.error` — and every remaining entry,
i.e. `email`, is written onto the row with `setattr`. -/
def update_user (kernel : List Nat → Nat → List Char → List Char)
    (cost : Nat) (salt : List Char) (user : User) (user_in : UserUpdate) :
    Except String User :=
  match user_in.password with
  | none => Except.error "AttributeError: NoneType object has no attribute encode"
  | some pw =>
    Except.ok { user with
                email := user_in.email
                hashed_password := get_password_hash kernel pw cost salt }

/-! ## Response envelope (`app/models/response.py`) -/

/-- The `CodeEnum` values used by the auth endpoints. -/
def CodeEnum.OK : Int := 200
def CodeEnum.PARAM_ERROR : Int := 400
def CodeEnum.UNAUTHORIZED : Int := 401
def CodeEnum.SERVER_ERROR : Int := 500

/-- The unified response model `R` at the `User` payload instance the
auth endpoints use. -/
structure R where
  code : Int
  msg : String
  data : Option User
deriving DecidableEq, Repr

/-- The classmethod `R.fail(msg=..., code=...)` — `data` keeps its `None` default at
both auth call sites. -/
def R.fail (msg : String) (code : Int) : R :=
  { code := code, msg := msg, data := none }

/-- The helper `success(data=...)` = `R.ok(data=..., msg="操作成功")`. -/
def success (data : Option User) : R :=
  { code := CodeEnum.OK, msg := "操作成功", data := data }

/-! ## Auth endpoints (`app/api/v1/auth.py`) -/

/-- What `login` returns to the framework: either a plain `R` envelope
(the bad-credentials branch — an ordinary return value, not a raised
`HTTPException`, so it never carries its own HTTP status) or the
token dict `{access_token, token_type, user}`. -/
inductive LoginResult where
  | body (envelope : R)
  | token (access_token : JwtToken) (token_type : String) (user : User)
deriving DecidableEq, Repr

/-- From `app/api/v1/auth.py`, `login`: authenticate, and on failure return
`R.fail(msg="邮箱或密码错误", code=CodeEnum.PARAM_ERROR)`; on success
issue a token for `{"sub": user.email}` with the configured 30-minute
expiry. -/
def login (kernel : List Nat → Nat → List Char → List Char)
    (sign : String → JwtClaims → Nat) (secret : String)
    (db : Db) (username password : String) (now : Int) : LoginResult :=
  match authenticate_user kernel db username password with
  | none => LoginResult.body (R.fail "邮箱或密码错误" CodeEnum.PARAM_ERROR)
  | some user =>
    LoginResult.token
      (create_access_token sign secret { sub := some user.email, exp := none } now
        (some (ACCESS_TOKEN_EXPIRE_MINUTES * 60)))
      "bearer" user

/-- From `app/api/v1/auth.py`, `register`: create the user (propagating `create_user`'s 400 on a
duplicate email) and return `success(data=user)` — the `R` envelope,
even though the route declares `response_model=UserOut`. -/
def register (kernel : List Nat → Nat → List Char → List Char)
    (cost : Nat) (salt : List Char) (db : Db) (nextId : Nat) (now : Nat)
    (user_in : UserCreate) : Except HTTPExc R :=
  match create_user kernel cost salt db nextId now user_in with
  | Except.error e => Except.error e
  | Except.ok (_, user) => Except.ok (success (some user))

/-! ## Response serialization

A small JSON value type, enough to state what the wire body of a
response looks like: which keys appear at which level. -/

inductive JVal where
  | str (v : String)
  | num (v : Int)
  | bool (v : Bool)
  | nul
  | obj (fields : List (String × JVal))

/-- Serialization of a `User` row with all of its mapped attributes —
what pydantic sees when it dumps the ORM object itself. -/
def serializeUser (u : User) : JVal :=
  JVal.obj
    [ ("id", JVal.num (Int.ofNat u.id))
    , ("email", JVal.str u.email)
    , ("full_name", match u.full_name with
                    | some n => JVal.str n
                    | none => JVal.nul)
    , ("hashed_password", JVal.str u.hashed_password)
    , ("is_active", JVal.bool u.is_active)
    , ("created_at", JVal.num (Int.ofNat u.created_at)) ]

/-- Serialization of the `R` envelope: top-level keys are `code`, `msg`,
`data`, with the payload nested under `data`. -/
def serializeR (r : R) : JVal :=
  JVal.obj
    [ ("code", JVal.num r.code)
    , ("msg", JVal.str r.msg)
    , ("data", match r.data with
               | some u => serializeUser u
               | none => JVal.nul) ]

/-- Look a key up among the top-level fields of a JSON object. -/
def jlookup (j : JVal) (key : String) : Option JVal :=
  match j with
  | JVal.obj fields => Option.map (fun p => p.2) (List.find? (fun p => p.1 == key) fields)
  | _ => none

/-! ## Concrete instances used by witnesses and counterexamples

The theorems below quantify over the abstract signing function and
bcrypt kernel; these executable instances let closed statements evaluate.
`kernelInj` is collision-free on byte lists (an ideal one-way kernel),
matching the spec's "with overwhelming probability" idealization. -/

def constSign : String → JwtClaims → Nat := fun _ _ => 0

def kernelInj : List Nat → Nat → List Char → List Char :=
  fun p _ _ => List.map (fun b => Char.ofNat b) p

def saltChars : List Char := String.data "0123456789012345678901"

def demoUser : User :=
  { id := 1, email := "a@x.com", full_name := none,
    hashed_password := get_password_hash kernelInj "rightpw" 12 saltChars,
    is_active := true, created_at := 0 }

def updatedDemo : User :=
  { demoUser with
    email := "c@x.com",
    hashed_password := get_password_hash kernelInj "pw" 12 saltChars }

def regUser : User :=
  { id := 1, email := "a@x.com", full_name := none,
    hashed_password := get_password_hash kernelInj "pw123456" 12 saltChars,
    is_active := true, created_at := 0 }

/-- A 73-character secret sharing its first 72 bytes with `longA72`. -/
def longA73 : String := String.mk (List.replicate 73 'a')

/-- A 72-character secret. -/
def longA72 : String := String.mk (List.replicate 72 'a')

/-- The expiry delta `create_access_token` actually applies: a Python
falsy `expires_delta` (absent, or `timedelta(0)`) falls back to the
configured 30-minute default. -/
def effectiveDelta : Option Int → Int
  | some d => if d ≠ 0 then d else ACCESS_TOKEN_EXPIRE_MINUTES * 60
  | none => ACCESS_TOKEN_EXPIRE_MINUTES * 60

/-! ## Helper lemmas -/

theorem charToNat_ofNat (n : Nat) (h : n < 55296) : (Char.ofNat n).toNat = n := by
  have hv : n.isValidChar := Or.inl h
  rw [Char.ofNat, dif_pos hv]
  rfl

theorem map_charOfNat_inj (p q : List Nat) (hp : ∀ b ∈ p, b < 256) (hq : ∀ b ∈ q, b < 256)
    (h : List.map (fun b => Char.ofNat b) p = List.map (fun b => Char.ofNat b) q) : p = q := by
  induction p generalizing q with
  | nil =>
    cases q with
    | nil => rfl
    | cons b bs => simp at h
  | cons a as ih =>
    cases q with
    | nil => simp at h
    | cons b bs =>
      simp only [List.map_cons, List.cons.injEq] at h
      have ha : a < 256 := hp a (by simp)
      have hb : b < 256 := hq b (by simp)
      have hab : a = b := by
        have h2 := congrArg Char.toNat h.1
        rwa [charToNat_ofNat a (by omega), charToNat_ofNat b (by omega)] at h2
      subst hab
      have h3 := ih bs (fun x hx => hp x (List.mem_cons_of_mem _ hx))
        (fun x hx => hq x (List.mem_cons_of_mem _ hx)) h.2
      simp [h3]

/-- A hash emitted by `hashpw` parses back to the cost, salt and digest
it embeds. -/
theorem parseBcrypt_mkBcrypt (cost : Nat) (salt digest : List Char)
    (hs : salt.length = 22) (hc : cost < 100) :
    parseBcryptChars (mkBcryptChars cost salt digest) = some (cost, salt, digest) := by
  have h1 : (Char.ofNat (48 + cost / 10)).toNat = 48 + cost / 10 := charToNat_ofNat _ (by omega)
  have h2 : (Char.ofNat (48 + cost % 10)).toNat = 48 + cost % 10 := charToNat_ofNat _ (by omega)
  have hmod : cost % 10 < 10 := Nat.mod_lt _ (by omega)
  have hdiv : cost / 10 ≤ 9 := by omega
  have htake : List.take 22 (salt ++ digest) = salt := List.take_left' hs
  have hdrop : List.drop 22 (salt ++ digest) = digest := List.drop_left' hs
  show (if 48 ≤ Char.toNat (Char.ofNat (48 + cost / 10)) ∧
          Char.toNat (Char.ofNat (48 + cost / 10)) ≤ 57 ∧
          48 ≤ Char.toNat (Char.ofNat (48 + cost % 10)) ∧
          Char.toNat (Char.ofNat (48 + cost % 10)) ≤ 57 ∧
          22 ≤ List.length (salt ++ digest) then
        some ((Char.toNat (Char.ofNat (48 + cost / 10)) - 48) * 10 +
              (Char.toNat (Char.ofNat (48 + cost % 10)) - 48),
              List.take 22 (salt ++ digest), List.drop 22 (salt ++ digest))
      else none) = some (cost, salt, digest)
  rw [h1, h2, htake, hdrop,
    if_pos ⟨by omega, by omega, by omega, by omega, by simp [List.length_append, hs]⟩]
  have hcost : (48 + cost / 10 - 48) * 10 + (48 + cost % 10 - 48) = cost := by omega
  rw [hcost]

theorem utf8Bytes_lt_256 (s : String) : ∀ b ∈ utf8Bytes s, b < 256 := by
  intro b hb
  unfold utf8Bytes at hb
  simp only [List.mem_map] at hb
  obtain ⟨u, _, rfl⟩ := hb
  exact u.toNat_lt

theorem trunc_lt_256 (s : String) : ∀ b ∈ truncate72 (utf8Bytes s), b < 256 :=
  fun b hb => utf8Bytes_lt_256 s b (List.mem_of_mem_take hb)

/-- Lemma: `create_access_token` always issues a signed token whose `exp` claim
is `now` plus the effective delta. -/
theorem create_access_token_eq (sign : String → JwtClaims → Nat) (secret : String)
    (data : JwtClaims) (now : Int) (ttl : Option Int) :
    create_access_token sign secret data now ttl =
      JwtToken.signed { data with exp := some (now + effectiveDelta ttl) }
        (sign secret { data with exp := some (now + effectiveDelta ttl) }) := by
  unfold create_access_token effectiveDelta
  cases ttl with
  | none => rfl
  | some d => by_cases hd : d = 0 <;> simp [hd]

/-! ## Claims -/

/-- C1: whenever token validation fails (malformed, tampered or expired,
i.e. any `JWTError`), or the decoded payload has no subject, or the
subject has no matching account, `get_current_user` fails — and every
failure is the one `credentials_exception`: HTTP 401 with detail
"Could not validate credentials", never distinguishing the cause. -/
theorem get_current_user_uniform_unauthorized (sign : String → JwtClaims → Nat)
    (secret : String) (db : Db) (token : JwtToken) (now : Int) :
    credentialsException.status_code = 401 ∧
    credentialsException.detail = "Could not validate credentials" ∧
    (∀ err, jwtDecode sign secret token now = Except.error err →
      get_current_user sign secret db token now = Except.error credentialsException) ∧
    (∀ payload, jwtDecode sign secret token now = Except.ok payload → payload.sub = none →
      get_current_user sign secret db token now = Except.error credentialsException) ∧
    (∀ payload email, jwtDecode sign secret token now = Except.ok payload →
      payload.sub = some email → get_user_by_email db email = none →
      get_current_user sign secret db token now = Except.error credentialsException) ∧
    (∀ e, get_current_user sign secret db token now = Except.error e →
      e = credentialsException) := by
  refine ⟨rfl, rfl, ?_, ?_, ?_, ?_⟩
  · intro err h
    unfold get_current_user
    rw [h]
  · intro payload h hsub
    unfold get_current_user
    rw [h]
    simp only [hsub]
  · intro payload email h hsub hlu
    unfold get_current_user
    rw [h]
    simp only [hsub, hlu]
  · intro e he
    unfold get_current_user at he
    cases hdec : jwtDecode sign secret token now with
    | error err =>
      rw [hdec] at he
      exact (Except.error.inj he).symm
    | ok payload =>
      rw [hdec] at he
      cases hsub : payload.sub with
      | none =>
        simp only [hsub] at he
        exact (Except.error.inj he).symm
      | some email =>
        simp only [hsub] at he
        cases hlu : get_user_by_email db email with
        | none =>
          simp only [hlu] at he
          exact (Except.error.inj he).symm
        | some user =>
          simp only [hlu] at he
          exact absurd he (by simp)

/-- Witness for C1 at a concrete failing input: a malformed bearer
string is rejected with the uniform 401. -/
theorem get_current_user_uniform_unauthorized_witness :
    get_current_user constSign "k" [] (JwtToken.malformed "zzz") 0 =
      Except.error credentialsException :=
  (get_current_user_uniform_unauthorized constSign "k" [] (JwtToken.malformed "zzz")
    0).2.2.1 JoseError.malformedToken rfl

/-- C2: evaluating `login` at the repository's own failing test input
(`tests/test_auth.py::test_login_invalid_credentials`, which asserts
HTTP 401).  Both bad-credential causes — unknown email on an empty
table, and wrong password for an existing account — return the
identical plain `R` envelope with code `CodeEnum.PARAM_ERROR = 400`,
which is not the 401-equivalent the claim (and the test) require; no
`HTTPException` is raised on this path. -/
theorem login_bad_credentials_param_error_envelope :
    (login kernelInj constSign "k" [] "nonexistent@example.com" "wrongpassword" 0 =
      LoginResult.body { code := 400, msg := "邮箱或密码错误", data := none }) ∧
    (login kernelInj constSign "k" [demoUser] "a@x.com" "wrongpw" 0 =
      LoginResult.body { code := 400, msg := "邮箱或密码错误", data := none }) ∧
    CodeEnum.PARAM_ERROR ≠ CodeEnum.UNAUTHORIZED :=
  ⟨rfl, rfl, by decide⟩

/-- C3 counterexample: a token issued with `ttl = 0` does NOT fail
validation immediately after issuance — Python's falsy check on
`expires_delta` turns `timedelta(0)` into the default 30-minute expiry
(`exp = now + 1800`), so the claim's premise "ttl = 0, so exp equals
now" is false of `create_access_token` and the token validates. -/
theorem ttl_zero_token_validates :
    jwtDecode constSign "k"
        (create_access_token constSign "k" { sub := some "alice", exp := none } 0 (some 0)) 0 =
      Except.ok { sub := some "alice", exp := some 1800 } := rfl

/-- C3 (amended): validation of a token issued by `create_access_token`
succeeds exactly when the current time is strictly below the token's
`exp`; `exp` equal to now counts as expired and an elapsed ttl fails —
but the `exp` of a `ttl = 0` token is `now + 1800` (the Python falsy
fallback to the 30-minute default), not `now`, so that token validates
immediately after issuance. -/
theorem token_validation_accepts_iff_exp_gt_now (sign : String → JwtClaims → Nat)
    (secret : String) (data : JwtClaims) (now : Int) (ttl : Option Int) (now' : Int) :
    Except.isOk (jwtDecode sign secret
        (create_access_token sign secret data now ttl) now') = true ↔
      now' < now + effectiveDelta ttl := by
  rw [create_access_token_eq]
  simp only [jwtDecode]
  rw [if_neg (by simp)]
  by_cases hv : now + effectiveDelta ttl > now'
  · rw [if_pos hv]
    exact ⟨fun _ => hv, fun _ => rfl⟩
  · rw [if_neg hv]
    constructor
    · intro h
      simp [Except.isOk, Except.toBool] at h
    · intro h
      exact absurd h hv

/-- C4: issuing a token for any subject with any positive ttl and
validating it immediately (same signer, secret and clock) succeeds and
returns the issued subject. -/
theorem issue_then_validate_yields_subject (sign : String → JwtClaims → Nat)
    (secret subject : String) (now ttl : Int) (h : 0 < ttl) :
    ∃ payload, jwtDecode sign secret
        (create_access_token sign secret { sub := some subject, exp := none } now
          (some ttl)) now =
      Except.ok payload ∧ payload.sub = some subject := by
  refine ⟨⟨some subject, some (now + ttl)⟩, ?_, rfl⟩
  rw [create_access_token_eq]
  simp only [jwtDecode]
  rw [if_neg (by simp)]
  have he : effectiveDelta (some ttl) = ttl := by
    simp only [effectiveDelta]
    rw [if_pos (by omega : ttl ≠ 0)]
  rw [he]
  rw [if_pos (by omega : now + ttl > now)]

/-- Witness for C4 at subject "alice", ttl 60 seconds. -/
theorem issue_then_validate_yields_subject_witness :
    ∃ payload, jwtDecode constSign "k"
        (create_access_token constSign "k" { sub := some "alice", exp := none } 0
          (some 60)) 0 =
      Except.ok payload ∧ payload.sub = some "alice" :=
  issue_then_validate_yields_subject constSign "k" "alice" 0 60 (by decide)

/-- C5: for every secret (empty and over-72-byte ones included),
verifying it against its own hash succeeds: both sides truncate the
UTF-8 encoding to the same 72-byte ceiling, and the stored hash embeds
the salt and cost the verification reuses. -/
theorem verify_of_hash_self_true (kernel : List Nat → Nat → List Char → List Char)
    (s : String) (cost : Nat) (salt : List Char)
    (hsalt : salt.length = 22) (hcost : cost < 100) :
    verify_password kernel s (get_password_hash kernel s cost salt) = true := by
  unfold verify_password checkpw get_password_hash hashpw
  rw [show (String.mk (mkBcryptChars cost salt
      (kernel (truncate72 (utf8Bytes s)) cost salt))).data =
    mkBcryptChars cost salt (kernel (truncate72 (utf8Bytes s)) cost salt) from rfl]
  rw [parseBcrypt_mkBcrypt cost salt _ hsalt hcost]
  simp

/-- Witness for C5 at the empty secret. -/
theorem verify_of_hash_self_true_witness :
    verify_password kernelInj "" (get_password_hash kernelInj "" 12 saltChars) = true :=
  verify_of_hash_self_true kernelInj "" 12 saltChars (by decide) (by decide)

/-- C6 counterexample: two distinct secrets of 73 and 72 characters
share their first 72 bytes, so — for the actual truncating code, with
the ideal collision-free kernel — verifying the first against the hash
of the second returns `true`, refuting "for every pair of distinct
secrets". -/
theorem verify_collision_beyond_72_bytes :
    longA73 ≠ longA72 ∧
    verify_password kernelInj longA73
      (get_password_hash kernelInj longA72 12 saltChars) = true :=
  ⟨by decide, rfl⟩

/-- C6 (amended): for secrets whose UTF-8 encodings still differ after
truncation to bcrypt's 72-byte ceiling, verification against the
other's hash returns false, modelling the bcrypt kernel as
collision-free ("with overwhelming probability"). -/
theorem verify_distinct_truncated_secrets_false
    (kernel : List Nat → Nat → List Char → List Char)
    (s1 s2 : String) (cost : Nat) (salt : List Char)
    (hsalt : salt.length = 22) (hcost : cost < 100)
    (hker : ∀ p q : List Nat, (∀ b ∈ p, b < 256) → (∀ b ∈ q, b < 256) →
      kernel p cost salt = kernel q cost salt → p = q)
    (hne : truncate72 (utf8Bytes s1) ≠ truncate72 (utf8Bytes s2)) :
    verify_password kernel s1 (get_password_hash kernel s2 cost salt) = false := by
  unfold verify_password checkpw get_password_hash hashpw
  rw [show (String.mk (mkBcryptChars cost salt
      (kernel (truncate72 (utf8Bytes s2)) cost salt))).data =
    mkBcryptChars cost salt (kernel (truncate72 (utf8Bytes s2)) cost salt) from rfl]
  rw [parseBcrypt_mkBcrypt cost salt _ hsalt hcost]
  simp only [decide_eq_false_iff_not]
  intro heq
  exact hne (hker _ _ (trunc_lt_256 s1) (trunc_lt_256 s2) heq)

/-- Witness for C6 (amended) at two short distinct secrets and the
injective kernel. -/
theorem verify_distinct_truncated_secrets_false_witness :
    verify_password kernelInj "pw-a" (get_password_hash kernelInj "pw-b" 12 saltChars) = false :=
  verify_distinct_truncated_secrets_false kernelInj "pw-a" "pw-b" 12 saltChars
    (by decide) (by decide) (fun p q hp hq h => map_charOfNat_inj p q hp hq h) (by decide)

/-- C7 counterexample: `update_user` applied to an account with email
"a@x.com" and a `UserUpdate` carrying email "b@x.com" returns the
account with its email changed — the natural key is not immutable. -/
theorem update_user_changes_email :
    demoUser.email = "a@x.com" ∧
    Except.map User.email
      (update_user kernelInj 12 saltChars demoUser
        { email := "b@x.com", password := some "npw" }) = Except.ok "b@x.com" :=
  ⟨rfl, rfl⟩

/-- C7 (amended): `UserUpdate` requires an email and `update_user`
writes every provided field onto the row, so a successful update always
sets the account's email to the submitted one (the natural key is
mutable, with no uniqueness check at update time); uniqueness is
enforced only at creation, where `create_user` rejects an email that
already has an account. -/
theorem update_email_mutable_create_checks_unique :
    (∀ (kernel : List Nat → Nat → List Char → List Char) (cost : Nat) (salt : List Char)
       (user : User) (user_in : UserUpdate) (u' : User),
       update_user kernel cost salt user user_in = Except.ok u' →
       u'.email = user_in.email) ∧
    (∀ (kernel : List Nat → Nat → List Char → List Char) (cost : Nat) (salt : List Char)
       (db : Db) (nextId : Nat) (now : Nat) (user_in : UserCreate) (u : User),
       u ∈ db → u.email = user_in.email →
       create_user kernel cost salt db nextId now user_in =
         Except.error { status_code := 400, detail := "该邮箱已被注册", headers := [] }) := by
  constructor
  · intro kernel cost salt user user_in u' h
    unfold update_user at h
    cases hp : user_in.password with
    | none =>
      rw [hp] at h
      exact absurd h (by simp)
    | some pw =>
      rw [hp] at h
      cases Except.ok.inj h
      rfl
  · intro kernel cost salt db nextId now user_in u hmem hemail
    unfold create_user
    have hs : (get_user_by_email db user_in.email).isSome := by
      unfold get_user_by_email
      rw [List.find?_isSome]
      exact ⟨u, hmem, by simp [hemail]⟩
    cases hfind : get_user_by_email db user_in.email with
    | none =>
      rw [hfind] at hs
      simp at hs
    | some v => rfl

/-- Witness for C7 (amended): a concrete update rewrites the email to
"c@x.com", and creating a second account with `demoUser`'s email is
rejected. -/
theorem update_email_mutable_create_checks_unique_witness :
    updatedDemo.email = "c@x.com" ∧
    create_user kernelInj 12 saltChars [demoUser] 2 0
        { email := "a@x.com", password := "pw", full_name := none } =
      Except.error { status_code := 400, detail := "该邮箱已被注册", headers := [] } :=
  ⟨update_email_mutable_create_checks_unique.1 kernelInj 12 saltChars demoUser
      { email := "c@x.com", password := some "pw" } updatedDemo rfl,
    update_email_mutable_create_checks_unique.2 kernelInj 12 saltChars [demoUser] 2 0
      { email := "a@x.com", password := "pw", full_name := none } demoUser
      (List.mem_singleton.mpr rfl) rfl⟩

/-- C8: `verify_password` is total — whatever string sits in the
stored-hash column, a malformed one makes the underlying `checkpw`
raise, and the `except` handler turns that into `false`. -/
theorem verify_password_total_malformed_false
    (kernel : List Nat → Nat → List Char → List Char) (pw h : String)
    (hmal : parseBcryptChars (String.data h) = none) :
    checkpw kernel (truncate72 (utf8Bytes pw)) h = Except.error "Invalid salt" ∧
    verify_password kernel pw h = false := by
  refine ⟨?_, ?_⟩
  · unfold checkpw
    rw [hmal]
  · unfold verify_password checkpw
    rw [hmal]

/-- Witness for C8 at the non-hash string "nothash". -/
theorem verify_password_total_malformed_false_witness :
    checkpw kernelInj (truncate72 (utf8Bytes "x")) "nothash" = Except.error "Invalid salt" ∧
    verify_password kernelInj "x" "nothash" = false :=
  verify_password_total_malformed_false kernelInj "x" "nothash" rfl

/-- C9: evaluating `register` at the spec's scenario input
(`{email: "a@x.com", password: "pw123456"}`, empty table).  The
endpoint returns the `success(...)` envelope: its top-level keys are
`code`/`msg`/`data`, so no `email` key exists at top level (the repo's
own `tests/test_auth.py::test_register` asserts
`response.json()["email"]`), the account's email sits nested under
`data`, and the raw ORM dump under `data` still carries
`hashed_password` — the envelope is not the declared `UserOut`
representation. -/
theorem register_returns_envelope_not_user_out :
    (register kernelInj 12 saltChars [] 1 0
        { email := "a@x.com", password := "pw123456", full_name := none } =
      Except.ok (success (some regUser))) ∧
    jlookup (serializeR (success (some regUser))) "email" = none ∧
    Option.bind (jlookup (serializeR (success (some regUser))) "data")
      (fun j => jlookup j "email") = some (JVal.str "a@x.com") ∧
    Option.bind (jlookup (serializeR (success (some regUser))) "data")
      (fun j => jlookup j "hashed_password") = some (JVal.str regUser.hashed_password) :=
  ⟨rfl, rfl, rfl, rfl⟩

/-- C10: a token whose signature verifies and whose `exp` is in the
future but whose payload has no `sub` claim is rejected by
`get_current_user` with the same uniform 401, for every database — the
account lookup is never consulted. -/
theorem get_current_user_missing_sub_unauthorized (sign : String → JwtClaims → Nat)
    (secret : String) (db : Db) (claims : JwtClaims) (sig : Nat) (now : Int)
    (hsig : sig = sign secret claims) (hsub : claims.sub = none)
    (hexp : ∀ e, claims.exp = some e → now < e) :
    get_current_user sign secret db (JwtToken.signed claims sig) now =
      Except.error credentialsException := by
  have hdec : jwtDecode sign secret (JwtToken.signed claims sig) now = Except.ok claims := by
    simp only [jwtDecode]
    rw [if_neg (by simp [hsig])]
    cases hx : claims.exp with
    | none => rfl
    | some e => simp [hexp e hx]
  unfold get_current_user
  rw [hdec]
  simp only [hsub]

/-- Witness for C10: a signed, unexpired token with no subject claim. -/
theorem get_current_user_missing_sub_unauthorized_witness :
    get_current_user constSign "k" []
        (JwtToken.signed { sub := none, exp := some 100 }
          (constSign "k" { sub := none, exp := some 100 })) 0 =
      Except.error credentialsException :=
  get_current_user_missing_sub_unauthorized constSign "k" []
    { sub := none, exp := some 100 } (constSign "k" { sub := none, exp := some 100 }) 0
    rfl rfl (fun e he => by injection he with h2; omega)

end AuthCore

